import Mathlib

/-!
Verification of the `AvroHelper` schema-format adapter (src/AvroHelper.ts) of
the confluent-schema-registry client.

Modelling conventions for the shallow embedding:

* A JavaScript property that may be `undefined`/`null` is modelled as an
  `Option`; `none` stands for an absent (or null) property.  The helper only
  ever reads the string-valued properties `name`, `type` and `namespace` of a
  schema object, so those are the fields our object model records.
* Exceptions are modelled with `Except`: a thrown
  `ConfluentSchemaRegistryArgumentError` becomes `HelperError.argumentError`,
  and an exception escaping the external collaborators (`JSON.parse`, the
  avsc compiler `avro.Type.forSchema`) becomes `HelperError.compilationError`
  (the spec's `SchemaCompilationError`).
* `JSON.parse` and `avro.Type.forSchema` are external black boxes (the spec
  scopes the format compilers out), so they are passed to the embedded
  operations as explicit function arguments.
-/

namespace ConfluentSchemaRegistry

/-- The `SchemaType` enum tag carried by a `ConfluentSchema`. -/
inductive SchemaType
  | AVRO
  | JSON
  | PROTOBUF
deriving Repr, DecidableEq

/-- String value of a `SchemaType` tag (the runtime `type` property of a
`ConfluentSchema` wrapper; always a non-null string). -/
def SchemaType.tag : SchemaType → String
  | .AVRO => "AVRO"
  | .JSON => "JSON"
  | .PROTOBUF => "PROTOBUF"

/-- A raw Avro schema object (the result of `JSON.parse` on schema text, or a
schema object supplied directly), restricted to the properties `AvroHelper`
reads: `name`, `type` and `namespace`. -/
structure RawAvroSchema where
  name : Option String
  type : Option String
  «namespace» : Option String
deriving Repr, DecidableEq

/-- The runtime value of the `schema` property of a `ConfluentSchema`: either
schema text (a string, to be parsed with `JSON.parse`) or an already-parsed
raw schema object; this mirrors the TypeScript union `string | RawAvroSchema`. -/
inductive SchemaField
  | text (s : String)
  | rawObj (r : RawAvroSchema)
deriving Repr, DecidableEq

/-- A `ConfluentSchema`: format tag plus schema text or raw schema object. -/
structure ConfluentSchema where
  type : SchemaType
  schema : SchemaField
deriving Repr, DecidableEq

/-- A runtime argument of `getAvroSchema`, whose TypeScript type is the
untagged union `ConfluentSchema | RawAvroSchema`.  JavaScript decides between
the two structurally, so the model records every property the method may
read: `name`, `type`, `namespace` (raw-schema view) and `schema` (wrapper
view; `none` when the property is absent). -/
structure AvroInput where
  name : Option String
  type : Option String
  «namespace» : Option String
  schema : Option SchemaField
deriving Repr, DecidableEq

/-- The view of an `AvroInput` as a raw Avro schema (the identity in
JavaScript, where both views are one object; here the projection onto the
raw-schema properties). -/
def AvroInput.asRaw (schema : AvroInput) : RawAvroSchema :=
  { name := schema.name, type := schema.type, «namespace» := schema.«namespace» }

/-- A `ConfluentSchema` value seen as a `getAvroSchema` argument: it carries
exactly the properties `type` (the `SchemaType` tag string) and `schema`. -/
def ConfluentSchema.toInput (c : ConfluentSchema) : AvroInput :=
  { name := none, type := some c.type.tag, «namespace» := none,
    schema := some c.schema }

/-- A compiled Avro schema as produced by `avro.Type.forSchema`, restricted
to the one property `AvroHelper.validate` reads: the compiled type's `name`
(absent for anonymous/primitive types). -/
structure AvroSchema where
  name : Option String
deriving Repr, DecidableEq

/-- Options forwarded opaquely to `avro.Type.forSchema`.
Modelled from the spec: `AvroOptions` lives in `@types`, which is not under
src/; the spec says per-format compiler options are passed opaquely (for Avro
e.g. `logicalTypes`). -/
structure AvroOptions where
  logicalTypes : List String := []
deriving Repr, DecidableEq

/-- Options per schema format.
Modelled from the spec: `ProtocolOptions` lives in `@types`, which is not
under src/; the spec describes a per-format options record passed opaquely to
the corresponding adapter. -/
structure ProtocolOptions where
  avro : Option AvroOptions := none
  json : Option (List String) := none
  protobuf : Option (List String) := none
deriving Repr, DecidableEq

/-- A cross-schema reference.
Modelled from the spec: `ReferenceType` lives in `@types`, which is not under
src/; the spec gives `SchemaReference = (name, subject, version)`. -/
structure SchemaReference where
  name : String
  subject : String
  version : Nat
deriving Repr, DecidableEq

/-- A registry fetch response.
Modelled from the spec: `SchemaResponse` lives in `@types`, which is not
under src/; the spec gives `(id, schemaText, schemaType, references)`.
`AvroHelper.toConfluentSchema` reads only the `schema` text. -/
structure SchemaResponse where
  id : Nat
  schema : String
  references : List SchemaReference := []
deriving Repr, DecidableEq

/-- A derived subject. -/
structure ConfluentSubject where
  name : String
deriving Repr, DecidableEq

/-- Errors of the adapter: `argumentError` is the
`ConfluentSchemaRegistryArgumentError` thrown by `AvroHelper` itself (the
spec's `MissingMetadataError`/`InvalidSchemaError`), `compilationError` an
exception propagated from `JSON.parse` or `avro.Type.forSchema` (the spec's
`SchemaCompilationError`). -/
inductive HelperError
  | argumentError (msg : String)
  | compilationError (msg : String)
deriving Repr, DecidableEq

/-- JavaScript truthiness of a possibly-absent string: `undefined`, `null`
and the empty string are falsy. -/
def jsFalsy : Option String → Bool
  | none => true
  | some s => s == ""

/-- String interpolation of a possibly-absent value, as in the template
literals of the thrown error messages: `undefined` prints as "undefined". -/
def jsStr : Option String → String
  | none => "undefined"
  | some s => s

/-- Element conversion of `Array.prototype.join`: `undefined` and `null`
become the empty string. -/
def joinStr : Option String → String
  | none => ""
  | some s => s

namespace AvroHelper

/-- Embeds `private getRawAvroSchema(schema: ConfluentSchema)`: parse the
`schema` property with `JSON.parse` when it is a string, otherwise return the
object as is.  `jsonParse` is the external `JSON.parse` builtin, restricted
to the properties the helper reads; its exception surfaces as a
`compilationError`. -/
def getRawAvroSchema (jsonParse : String → Except String RawAvroSchema)
    (schema : ConfluentSchema) : Except HelperError RawAvroSchema :=
  match schema.schema with
  | .text s => (jsonParse s).mapError HelperError.compilationError
  | .rawObj r => Except.ok r

/-- Embeds `private isRawAvroSchema`: the argument is classified as a raw
Avro schema exactly when both its `name` and `type` properties are
non-null. -/
def isRawAvroSchema (schema : AvroInput) : Bool :=
  schema.name.isSome && schema.type.isSome

/-- Embeds `public getAvroSchema`: pick the raw schema (the argument itself
when classified raw, otherwise the parsed `schema` property, `none` modelling
the undefined value the cast lets through when that property is absent) and
hand it to the external avsc compiler `forSchema` (`avro.Type.forSchema`),
whose exception surfaces as a `compilationError`. -/
def getAvroSchema (jsonParse : String → Except String RawAvroSchema)
    (forSchema : Option RawAvroSchema → Option AvroOptions → Except String AvroSchema)
    (schema : AvroInput) (opts : Option AvroOptions) : Except HelperError AvroSchema :=
  (if isRawAvroSchema schema then
      Except.ok (some schema.asRaw)
    else
      match schema.schema with
      | some (SchemaField.text s) =>
          ((jsonParse s).mapError HelperError.compilationError).map some
      | some (SchemaField.rawObj r) => Except.ok (some r)
      | none => Except.ok none).bind
    fun rawSchema => (forSchema rawSchema opts).mapError HelperError.compilationError

/-- Embeds `public validate`: throw a `ConfluentSchemaRegistryArgumentError`
when the compiled schema's `name` is falsy. -/
def validate (avroSchema : AvroSchema) : Except HelperError Unit :=
  if jsFalsy avroSchema.name then
    Except.error (HelperError.argumentError ("Invalid name: " ++ jsStr avroSchema.name))
  else
    Except.ok ()

/-- Embeds `public getSubject`: re-derive the raw schema from the
`ConfluentSchema`, throw a `ConfluentSchemaRegistryArgumentError` when its
`namespace` is falsy, and otherwise join `[namespace, name]` with the
separator (`Array.prototype.join` turns an undefined `name` into the empty
string).  The compiled `avroSchema` argument is never read. -/
def getSubject (jsonParse : String → Except String RawAvroSchema)
    (schema : ConfluentSchema) (avroSchema : AvroSchema) (separator : String) :
    Except HelperError ConfluentSubject :=
  (getRawAvroSchema jsonParse schema).bind fun rawSchema =>
    if jsFalsy rawSchema.«namespace» then
      Except.error (HelperError.argumentError
        ("Invalid namespace: " ++ jsStr rawSchema.«namespace»))
    else
      Except.ok ⟨joinStr rawSchema.«namespace» ++ separator ++ joinStr rawSchema.name⟩

/-- Embeds `public toConfluentSchema`: wrap the response's schema text with
the AVRO tag (references are not inlined for this format). -/
def toConfluentSchema (data : SchemaResponse) : ConfluentSchema :=
  { type := SchemaType.AVRO, schema := SchemaField.text data.schema }

/-- Embeds `getReferences`: always `undefined` for the Avro adapter. -/
def getReferences (_schema : ConfluentSchema) : Option (List SchemaReference) :=
  none

/-- Embeds `updateOptionsFromSchemaReferences`: returns `options` unchanged
for the Avro adapter. -/
def updateOptionsFromSchemaReferences (options : ProtocolOptions)
    (_referredSchemas : List SchemaField) : ProtocolOptions :=
  options

end AvroHelper

/-- C1: for every Avro ConfluentSchema whose parsed schema carries namespace
`ns` (non-empty) and name `nm`, `getSubject` returns the subject `ns`, the
separator and `nm` concatenated; in particular namespace `com.example` and
name `Simple` give `com.example.Simple` with separator `.` and
`com.example-Simple` with separator `-`. -/
theorem getSubject_joins_namespace_and_name
    (jsonParse : String → Except String RawAvroSchema)
    (schema : ConfluentSchema) (avroSchema : AvroSchema)
    (r : RawAvroSchema) (ns nm : String)
    (hraw : AvroHelper.getRawAvroSchema jsonParse schema = Except.ok r)
    (hns : r.«namespace» = some ns) (hns0 : ns ≠ "") (hnm : r.name = some nm) :
    (∀ separator, AvroHelper.getSubject jsonParse schema avroSchema separator =
        Except.ok ⟨ns ++ separator ++ nm⟩) ∧
    (ns = "com.example" → nm = "Simple" →
      AvroHelper.getSubject jsonParse schema avroSchema "." =
          Except.ok ⟨"com.example.Simple"⟩ ∧
        AvroHelper.getSubject jsonParse schema avroSchema "-" =
          Except.ok ⟨"com.example-Simple"⟩) := by
  have h1 : ∀ separator, AvroHelper.getSubject jsonParse schema avroSchema separator =
      Except.ok ⟨ns ++ separator ++ nm⟩ := by
    intro separator
    simp [AvroHelper.getSubject, hraw, Except.bind, hns, hnm, jsFalsy, hns0, joinStr]
  refine ⟨h1, ?_⟩
  rintro rfl rfl
  have e1 : "com.example" ++ "." ++ "Simple" = "com.example.Simple" := by decide
  have e2 : "com.example" ++ "-" ++ "Simple" = "com.example-Simple" := by decide
  exact ⟨by rw [h1, e1], by rw [h1, e2]⟩

/-- Witness for C1 at namespace `com.example`, name `Simple`, separator `.`. -/
theorem getSubject_joins_namespace_and_name_witness :
    AvroHelper.getSubject (fun s => Except.error s)
        ⟨SchemaType.AVRO,
          SchemaField.rawObj ⟨some "Simple", some "record", some "com.example"⟩⟩
        ⟨some "Simple"⟩ "." = Except.ok ⟨"com.example.Simple"⟩ :=
  ((getSubject_joins_namespace_and_name (fun s => Except.error s)
      ⟨SchemaType.AVRO,
        SchemaField.rawObj ⟨some "Simple", some "record", some "com.example"⟩⟩
      ⟨some "Simple"⟩ ⟨some "Simple", some "record", some "com.example"⟩
      "com.example" "Simple" rfl rfl (by decide) rfl).2 rfl rfl).1

/-- C2: when the parsed schema's namespace is absent or empty, `getSubject`
fails with the missing-metadata error (a thrown
`ConfluentSchemaRegistryArgumentError`) and returns no subject. -/
theorem getSubject_missing_namespace_fails
    (jsonParse : String → Except String RawAvroSchema)
    (schema : ConfluentSchema) (avroSchema : AvroSchema) (r : RawAvroSchema)
    (hraw : AvroHelper.getRawAvroSchema jsonParse schema = Except.ok r)
    (hns : r.«namespace» = none ∨ r.«namespace» = some "") (separator : String) :
    AvroHelper.getSubject jsonParse schema avroSchema separator =
      Except.error (HelperError.argumentError
        ("Invalid namespace: " ++ jsStr r.«namespace»)) := by
  rcases hns with h | h <;>
    simp [AvroHelper.getSubject, hraw, Except.bind, h, jsFalsy, jsStr]

/-- Witness for C2 at a schema object with no namespace. -/
theorem getSubject_missing_namespace_fails_witness :
    AvroHelper.getSubject (fun s => Except.error s)
        ⟨SchemaType.AVRO, SchemaField.rawObj ⟨some "Simple", some "record", none⟩⟩
        ⟨some "Simple"⟩ "." =
      Except.error (HelperError.argumentError "Invalid namespace: undefined") := by
  simpa [jsStr] using
    getSubject_missing_namespace_fails (fun s => Except.error s)
      ⟨SchemaType.AVRO, SchemaField.rawObj ⟨some "Simple", some "record", none⟩⟩
      ⟨some "Simple"⟩ ⟨some "Simple", some "record", none⟩ rfl (Or.inl rfl) "."

/-- C3: `validate` succeeds exactly when the compiled schema carries a
non-empty top-level name, and fails with the invalid-schema error (a thrown
`ConfluentSchemaRegistryArgumentError`) when that requirement is unmet. -/
theorem validate_requires_nonempty_name (a : AvroSchema) :
    (AvroHelper.validate a = Except.ok () ↔ ∃ nm, a.name = some nm ∧ nm ≠ "") ∧
    ((a.name = none ∨ a.name = some "") →
      AvroHelper.validate a =
        Except.error (HelperError.argumentError ("Invalid name: " ++ jsStr a.name))) := by
  obtain ⟨name⟩ := a
  constructor
  · cases name with
    | none => simp [AvroHelper.validate, jsFalsy]
    | some s => by_cases h : s = "" <;> simp [AvroHelper.validate, jsFalsy, h]
  · rintro (h | h) <;> simp_all [AvroHelper.validate, jsFalsy, jsStr]

/-- Witness for C3: a named compiled schema passes, an anonymous one fails. -/
theorem validate_requires_nonempty_name_witness :
    AvroHelper.validate ⟨some "Simple"⟩ = Except.ok () ∧
      AvroHelper.validate ⟨none⟩ =
        Except.error (HelperError.argumentError "Invalid name: undefined") :=
  ⟨(validate_requires_nonempty_name ⟨some "Simple"⟩).1.mpr ⟨"Simple", rfl, by decide⟩,
   by simpa [jsStr] using (validate_requires_nonempty_name ⟨none⟩).2 (Or.inl rfl)⟩

/-- C4: on a ConfluentSchema whose schema text is malformed (the external
JSON parse fails), `getAvroSchema` fails with the compilation error; on
well-formed text (parse and avsc compilation succeed) it returns the
compiled schema artifact. -/
theorem getAvroSchema_compilation
    (jsonParse : String → Except String RawAvroSchema)
    (forSchema : Option RawAvroSchema → Option AvroOptions → Except String AvroSchema)
    (c : ConfluentSchema) (s : String) (opts : Option AvroOptions)
    (hs : c.schema = SchemaField.text s) :
    (∀ e, jsonParse s = Except.error e →
      AvroHelper.getAvroSchema jsonParse forSchema c.toInput opts =
        Except.error (HelperError.compilationError e)) ∧
    (∀ r a, jsonParse s = Except.ok r → forSchema (some r) opts = Except.ok a →
      AvroHelper.getAvroSchema jsonParse forSchema c.toInput opts = Except.ok a) := by
  constructor
  · intro e he
    simp [AvroHelper.getAvroSchema, AvroHelper.isRawAvroSchema, ConfluentSchema.toInput,
      hs, he, Except.bind, Except.map, Except.mapError]
  · intro r a hr ha
    simp [AvroHelper.getAvroSchema, AvroHelper.isRawAvroSchema, ConfluentSchema.toInput,
      hs, hr, ha, Except.bind, Except.map, Except.mapError]

/-- Witness for C4: a failing parse surfaces as a compilation error. -/
theorem getAvroSchema_compilation_witness :
    AvroHelper.getAvroSchema (fun _ => Except.error "bad json")
        (fun _ _ => Except.ok ⟨some "T"⟩)
        (ConfluentSchema.toInput ⟨SchemaType.AVRO, SchemaField.text "oops"⟩) none =
      Except.error (HelperError.compilationError "bad json") :=
  (getAvroSchema_compilation (fun _ => Except.error "bad json")
      (fun _ _ => Except.ok ⟨some "T"⟩) ⟨SchemaType.AVRO, SchemaField.text "oops"⟩
      "oops" none rfl).1 "bad json" rfl

/-- C5: the Avro adapter's `getReferences` always returns undefined. -/
theorem getReferences_always_undefined (schema : ConfluentSchema) :
    AvroHelper.getReferences schema = none :=
  rfl

/-- C6: the Avro adapter's `updateOptionsFromSchemaReferences` is the
identity on its options argument, whatever the referred schemas are. -/
theorem updateOptions_is_identity (options : ProtocolOptions)
    (referredSchemas : List SchemaField) :
    AvroHelper.updateOptionsFromSchemaReferences options referredSchemas = options :=
  rfl

/-- C7: `toConfluentSchema` tags the result with the AVRO format and carries
the response's schema text over unchanged. -/
theorem toConfluentSchema_wraps_response (data : SchemaResponse) :
    (AvroHelper.toConfluentSchema data).type = SchemaType.AVRO ∧
    (AvroHelper.toConfluentSchema data).schema = SchemaField.text data.schema :=
  ⟨rfl, rfl⟩

/-- C8: `getSubject` never reads its compiled-schema argument: two calls
differing only in that argument return the same result. -/
theorem getSubject_independent_of_compiled
    (jsonParse : String → Except String RawAvroSchema)
    (schema : ConfluentSchema) (separator : String) (a1 a2 : AvroSchema) :
    AvroHelper.getSubject jsonParse schema a1 separator =
      AvroHelper.getSubject jsonParse schema a2 separator :=
  rfl

/-- C9: `getAvroSchema` classifies its argument as raw exactly when both the
`name` and `type` properties are non-null; in that case the argument itself
is compiled (any `schema` property is ignored), and otherwise the `schema`
property is compiled, parsed as JSON first when it is a string. -/
theorem getAvroSchema_raw_classification
    (jsonParse : String → Except String RawAvroSchema)
    (forSchema : Option RawAvroSchema → Option AvroOptions → Except String AvroSchema)
    (input : AvroInput) (opts : Option AvroOptions) :
    (AvroHelper.isRawAvroSchema input = true ↔
      input.name ≠ none ∧ input.type ≠ none) ∧
    (input.name ≠ none → input.type ≠ none →
      AvroHelper.getAvroSchema jsonParse forSchema input opts =
        (forSchema (some input.asRaw) opts).mapError HelperError.compilationError) ∧
    ((input.name = none ∨ input.type = none) →
      ∀ s, input.schema = some (SchemaField.text s) →
        AvroHelper.getAvroSchema jsonParse forSchema input opts =
          ((jsonParse s).mapError HelperError.compilationError).bind
            fun r => (forSchema (some r) opts).mapError HelperError.compilationError) ∧
    ((input.name = none ∨ input.type = none) →
      ∀ r, input.schema = some (SchemaField.rawObj r) →
        AvroHelper.getAvroSchema jsonParse forSchema input opts =
          (forSchema (some r) opts).mapError HelperError.compilationError) := by
  refine ⟨?_, ?_, ?_, ?_⟩
  · simp [AvroHelper.isRawAvroSchema, Bool.and_eq_true, Option.isSome_iff_ne_none]
  · intro h1 h2
    have hc : AvroHelper.isRawAvroSchema input = true := by
      simp [AvroHelper.isRawAvroSchema, Option.isSome_iff_ne_none, h1, h2]
    simp [AvroHelper.getAvroSchema, hc, Except.bind]
  · intro h s hs
    have hc : AvroHelper.isRawAvroSchema input = false := by
      rcases h with h | h <;> simp [AvroHelper.isRawAvroSchema, h]
    cases hj : jsonParse s <;>
      simp [AvroHelper.getAvroSchema, hc, hs, hj, Except.bind, Except.map, Except.mapError]
  · intro h r hs
    have hc : AvroHelper.isRawAvroSchema input = false := by
      rcases h with h | h <;> simp [AvroHelper.isRawAvroSchema, h]
    simp [AvroHelper.getAvroSchema, hc, hs, Except.bind]

/-- Witness for C9: an input carrying `name`, `type` and a `schema` property
is compiled from its own properties; the parse function (which would fail) is
never consulted. -/
theorem getAvroSchema_raw_classification_witness :
    AvroHelper.getAvroSchema (fun s => Except.error s)
        (fun r _ => Except.ok ⟨r.bind RawAvroSchema.name⟩)
        ⟨some "Simple", some "record", some "com.example",
          some (SchemaField.text "ignored")⟩ none =
      Except.ok ⟨some "Simple"⟩ := by
  have h := (getAvroSchema_raw_classification (fun s => Except.error s)
      (fun r _ => Except.ok ⟨r.bind RawAvroSchema.name⟩)
      ⟨some "Simple", some "record", some "com.example",
        some (SchemaField.text "ignored")⟩ none).2.1 (by decide) (by decide)
  simpa [AvroInput.asRaw, Except.mapError] using h

/-- C10: `getSubject` checks the namespace only: with a non-empty namespace
and no `name` property the derived subject is the namespace followed by the
separator and nothing after it. -/
theorem getSubject_tolerates_missing_name
    (jsonParse : String → Except String RawAvroSchema)
    (schema : ConfluentSchema) (avroSchema : AvroSchema)
    (r : RawAvroSchema) (ns : String)
    (hraw : AvroHelper.getRawAvroSchema jsonParse schema = Except.ok r)
    (hns : r.«namespace» = some ns) (hns0 : ns ≠ "") (hnm : r.name = none)
    (separator : String) :
    AvroHelper.getSubject jsonParse schema avroSchema separator =
      Except.ok ⟨ns ++ separator⟩ := by
  simp [AvroHelper.getSubject, hraw, Except.bind, hns, hnm, jsFalsy, hns0, joinStr]

/-- Witness for C10 at namespace `examples` and no name. -/
theorem getSubject_tolerates_missing_name_witness :
    AvroHelper.getSubject (fun s => Except.error s)
        ⟨SchemaType.AVRO, SchemaField.rawObj ⟨none, some "record", some "examples"⟩⟩
        ⟨none⟩ "." = Except.ok ⟨"examples."⟩ := by
  simpa using
    getSubject_tolerates_missing_name (fun s => Except.error s)
      ⟨SchemaType.AVRO, SchemaField.rawObj ⟨none, some "record", some "examples"⟩⟩
      ⟨none⟩ ⟨none, some "record", some "examples"⟩ "examples" rfl rfl
      (by decide) rfl "."

end ConfluentSchemaRegistry
